import Mathlib

/-!
Shallow embedding of the cellular-module lifecycle orchestrator
(`src/ublox-cellular/src/client.rs`) and proofs about it.

The repository ships only `client.rs`; the collaborating modules
(`state.rs`, `network.rs`, the command catalog and `module_cfg` constants)
are referenced but absent, so their data types and operations are modelled
from the natural-language specification (marked `Modelled from the spec:`).
Everything in `client.rs` itself is translated directly from that source.

Transport exchanges, pin operations and delays are made observable by
returning an explicit action trace next to each result, and fallible
collaborators are passed in as explicit oracles (a function giving the
outcome of the i-th exchange, or the outcome of one fixed exchange).
-/

namespace Ublox

/-- Modelled from the spec: the orchestrator's state enumeration (section 3);
`state.rs` is not in the sources. The constructor names appear verbatim in
`client.rs`. -/
inductive State
  | Init
  | PowerOn
  | Configure
  | DeviceReady
  | SimPin
  | SignalQuality
  | RegisteringNetwork
  | AttachingNetwork
  | Connected
deriving DecidableEq

/-- Modelled from the spec: the Network Layer's error type (`network.rs` is
not in the sources). `client.rs` pattern-matches on `RegistrationDenied`;
every other transport/protocol failure is collapsed into `Generic`. -/
inductive NetworkError
  | RegistrationDenied
  | Generic
deriving DecidableEq

/-- Driver error type (`error.rs` is not in the sources; variants are the
ones `client.rs` constructs, plus the conversion from a network error). -/
inductive Error
  | Busy
  | BaudDetection
  | _Unknown
  | Uninitialized
  | StateTimeout
  | Network (e : NetworkError)
deriving DecidableEq

deriving instance DecidableEq for Except

/-- Modelled from the spec: `nb`-style result layer distinguishing
"would block" from a real error. -/
inductive Nb (ε : Type)
  | wouldBlock
  | other (e : ε)
deriving DecidableEq

/- Command-catalog value types. Modelled from the spec's command catalog
(section 6); the command modules are not in the sources. Constructor names
follow the uses in `client.rs`. -/

inductive TerminationErrorMode | Disabled | Numeric | Verbose
deriving DecidableEq

inductive Circuit109Behaviour | AlwaysPresent | ChangesWithCarrier
deriving DecidableEq

inductive Circuit108Behaviour | Ignore | UartDisconnect
deriving DecidableEq

inductive PowerSavingMode | Disabled | Enabled
deriving DecidableEq

inductive HexMode | Enabled | Disabled
deriving DecidableEq

inductive Functionality
  | Minimum
  | Full
  | AirplaneMode
  | SilentReset
  | SilentResetWithSimReset
deriving DecidableEq

inductive FlowControl | Disabled | RtsCts
deriving DecidableEq

inductive MessageWaitingMode | Disabled | Enabled
deriving DecidableEq

inductive NetworkRegistrationUrcConfig | UrcDisabled | UrcEnabled | UrcVerbose
deriving DecidableEq

inductive GPRSNetworkRegistrationUrcConfig | UrcDisabled | UrcEnabled | UrcVerbose
deriving DecidableEq

inductive EPSNetworkRegistrationUrcConfig | UrcDisabled | UrcEnabled | UrcVerbose
deriving DecidableEq

inductive RatPreferred | Lte | Utran
deriving DecidableEq

inductive RadioAccessTechnologySelected
  | GsmUmtsLte (first second : RatPreferred)
deriving DecidableEq

inductive PinStatusCode | Ready | SimPin | SimPuk
deriving DecidableEq

inductive GPRSAttachedState | Detached | Attached
deriving DecidableEq

/-- The AT commands `client.rs` issues, with the parameters it passes.
The `rst` parameter of `SetModuleFunctionality` is always `None` in the
source, so its payload type is modelled as `Unit`. -/
inductive ATCommand
  | AT
  | SetReportMobileTerminationError (n : TerminationErrorMode)
  | SetCircuit109Behaviour (value : Circuit109Behaviour)
  | SetCircuit108Behaviour (value : Circuit108Behaviour)
  | SetPowerSavingControl (mode : PowerSavingMode) (timeout : Option Nat)
  | SetHexMode (hex_mode_disable : HexMode)
  | SetModuleFunctionality (func : Functionality) (rst : Option Unit)
  | SetFlowControl (value : FlowControl)
  | SetMessageWaitingIndication (mode : MessageWaitingMode)
  | SetNetworkRegistrationStatus (n : NetworkRegistrationUrcConfig)
  | SetGPRSNetworkRegistrationStatus (n : GPRSNetworkRegistrationUrcConfig)
  | SetEPSNetworkRegistrationStatus (n : EPSNetworkRegistrationUrcConfig)
  | SetRadioAccessTechnology (selected_act : RadioAccessTechnologySelected)
  | GetPinStatus
  | GetGPRSAttached
  | GetCCID
  | SetPacketDomainEventReporting (onoff : Bool)
deriving DecidableEq

/-- Modelled from the spec: registration domain of a status notification
(section 3; `state.rs` is not in the sources). `Geran` is the 2G
circuit-switched domain; `client.rs` matches only `Utran | Eutran`. -/
inductive RadioAccessNetwork
  | UnknownUnused
  | Geran
  | Utran
  | Eutran
deriving DecidableEq

/-- Modelled from the spec: a registration status as carried by a
registration-status-changed event. Only `is_registered.isSome` is
inspected by `client.rs`. -/
inductive RegistrationStatus
  | NotRegistered
  | RegisteredHomeNetwork
  | SearchingNetwork
  | RegistrationDenied
  | Unknown
  | RegisteredRoaming
deriving DecidableEq

/-- Modelled from the spec: `some roaming?` when the status reports a
registered state, `none` otherwise. -/
def RegistrationStatus.is_registered : RegistrationStatus → Option Bool
  | RegistrationStatus.RegisteredHomeNetwork => some false
  | RegistrationStatus.RegisteredRoaming => some true
  | _ => none

/-- Modelled from the spec: asynchronous events surfaced by the Network
Layer (section 3; `state.rs` is not in the sources). Constructor names
follow `client.rs`; the connection id and cell id payloads are opaque. -/
inductive Event
  | Disconnected (cid : Option Nat)
  | CellularRegistrationStatusChanged
      (reg_type : RadioAccessNetwork) (status : RegistrationStatus)
  | CellularRadioAccessTechnologyChanged
      (reg_type : RadioAccessNetwork) (rat : Nat)
  | CellularCellIDChanged (cell_id : Option String)
deriving DecidableEq

/-- Static device configuration (`config.rs` is not in the sources; the
fields are the ones `client.rs` reads). A pin is modelled by whether it is
configured; for the presence-indicator pin, `some level` records the level
the wired pin would report (`true` = module reports powered). -/
structure Config where
  baud_rate : Nat
  hex_mode : Bool
  flow_control : Bool
  rst_pin : Bool
  dtr_pin : Bool
  pwr_pin : Bool
  vint_pin : Option Bool
deriving DecidableEq

/-- Modelled from the spec: `module_cfg` power-pulse pull duration in
milliseconds (the constants module is not in the sources; only the fact
that it is a fixed duration matters). -/
def PWR_ON_PULL_TIME_MS : Nat := 150

/-- Modelled from the spec: `module_cfg` boot wait duration in
milliseconds. -/
def BOOT_WAIT_TIME_MS : Nat := 3000

/-- Observable side effects of the orchestrator's operations: one AT
command/response exchange, a millisecond delay, or a power-pin edge. -/
inductive Act
  | cmd (c : ATCommand)
  | delayMs (ms : Nat)
  | pinLow
  | pinHigh
deriving DecidableEq

/-- Loop body of `Device::is_alive` (client.rs:145): poke the module with
`AT` up to the remaining number of attempts, remembering the last error.
`send i` is the outcome of the i-th `AT` exchange; `idx` counts exchanges
already made, and the result carries the total number of exchanges. -/
def is_aliveGo (send : Nat → Except NetworkError Unit) (err : Error)
    (idx : Nat) : Nat → Except Error Unit × Nat
  | 0 => (Except.error err, idx)
  | n + 1 =>
    match send idx with
    | Except.ok _ => (Except.ok (), idx + 1)
    | Except.error e => is_aliveGo send (Error.Network e) (idx + 1) n

/-- `Device::is_alive` (client.rs:145): starts from the default
`Error::BaudDetection` and tries up to `attempts` exchanges. -/
def is_alive (send : Nat → Except NetworkError Unit) (attempts : Nat) :
    Except Error Unit × Nat :=
  is_aliveGo send Error.BaudDetection 0 attempts

/-- Sequential `send_internal(..)?` chain: issue the commands in order,
stopping at (and returning) the first failure; the trace records every
command actually issued, the failing one included. -/
def sendSeq (send : ATCommand → Except NetworkError Unit) :
    List ATCommand → Except Error Unit × List ATCommand
  | [] => (Except.ok (), [])
  | c :: cs =>
    match send c with
    | Except.error e => (Except.error (Error.Network e), [c])
    | Except.ok _ =>
      match sendSeq send cs with
      | (r, tr) => (r, c :: tr)

/-- `Device::restart` (client.rs:271): the single `+CFUN` command it sends,
selected by the `sim_reset` flag. -/
def restartCmd (sim_reset : Bool) : ATCommand :=
  if sim_reset then
    ATCommand.SetModuleFunctionality Functionality.SilentResetWithSimReset none
  else
    ATCommand.SetModuleFunctionality Functionality.SilentReset none

/-- Circuit-switched registration-URC command as `client.rs:293` issues
it: URCs disabled. -/
def csUrcCmd : ATCommand :=
  ATCommand.SetNetworkRegistrationStatus NetworkRegistrationUrcConfig.UrcDisabled

/-- Packet-switched (GPRS) registration-URC command as `client.rs:300`
issues it: verbose URCs. -/
def gprsUrcCmd : ATCommand :=
  ATCommand.SetGPRSNetworkRegistrationStatus GPRSNetworkRegistrationUrcConfig.UrcVerbose

/-- EPS registration-URC command as `client.rs:307` issues it: verbose
URCs. -/
def epsUrcCmd : ATCommand :=
  ATCommand.SetEPSNetworkRegistrationStatus EPSNetworkRegistrationUrcConfig.UrcVerbose

/-- The three registration-URC configuration commands
`Device::enable_registration_urcs` (client.rs:292) issues, in source
order. -/
def urcCommands : List ATCommand :=
  [csUrcCmd, gprsUrcCmd, epsUrcCmd]

/-- `Device::enable_registration_urcs` (client.rs:292): three sequential
exchanges, each early-returning its failure. -/
def enable_registration_urcs (send : ATCommand → Except NetworkError Unit) :
    Except Error Unit × List ATCommand :=
  sendSeq send urcCommands

/-- The configuration command sequence of `Device::configure`
(client.rs:158), in source order, with the hex-mode and flow-control
choices taken from the configuration. -/
def configureCommands (cfg : Config) : List ATCommand :=
  [ATCommand.SetReportMobileTerminationError TerminationErrorMode.Verbose,
   ATCommand.SetCircuit109Behaviour Circuit109Behaviour.ChangesWithCarrier,
   ATCommand.SetCircuit108Behaviour Circuit108Behaviour.Ignore,
   ATCommand.SetPowerSavingControl PowerSavingMode.Disabled none,
   ATCommand.SetHexMode (if cfg.hex_mode then HexMode.Enabled else HexMode.Disabled),
   ATCommand.SetModuleFunctionality Functionality.AirplaneMode none,
   ATCommand.SetFlowControl (if cfg.flow_control then FlowControl.RtsCts else FlowControl.Disabled),
   ATCommand.SetMessageWaitingIndication MessageWaitingMode.Disabled]

/-- `Device::configure` (client.rs:158): a baud rate above 230 400 is
rejected up front with `Error::_Unknown` before any exchange; otherwise
the fixed command sequence runs, each command independently fatal. -/
def configure (cfg : Config) (send : ATCommand → Except NetworkError Unit) :
    Except Error Unit × List ATCommand :=
  if 230400 < cfg.baud_rate then (Except.error Error._Unknown, [])
  else sendSeq send (configureCommands cfg)

/-- Boot tail of `Device::power_on` (client.rs:128): wait the boot
duration (delay failure maps to `Error::Busy`), then require
`is_alive(10)`. `atR` indices continue after the initial three-probe
attempt. -/
def power_on_boot (atR : Nat → Except NetworkError Unit) (delayOk : Bool)
    (t : List Act) : Except Error Unit × List Act :=
  if delayOk then
    match is_alive (fun i => atR (3 + i)) 10 with
    | (r, m) =>
      (r, t ++ [Act.delayMs BOOT_WAIT_TIME_MS] ++ List.replicate m (Act.cmd ATCommand.AT))
  else
    (Except.error Error.Busy, t ++ [Act.delayMs BOOT_WAIT_TIME_MS])

/-- `Device::power_on` (client.rs:108). Note the source's `vint_value`
match: it distinguishes whether the presence-indicator pin is configured
but yields `false` in both arms, so the pin level in the configuration is
never consulted. `atR i` is the outcome of the i-th `AT` exchange of this
call; `send` answers the soft-restart command; `delayOk` is whether the
delay capability succeeds. -/
def power_on (cfg : Config) (atR : Nat → Except NetworkError Unit)
    (send : ATCommand → Except NetworkError Unit) (delayOk : Bool) :
    Except Error Unit × List Act :=
  let vint_value :=
    match cfg.vint_pin with
    | some _ => false
    | none => false
  if vint_value then
    (Except.ok (), [])
  else
    match is_alive atR 3 with
    | (Except.ok _, n) => (Except.ok (), List.replicate n (Act.cmd ATCommand.AT))
    | (Except.error _, n) =>
      let t0 := List.replicate n (Act.cmd ATCommand.AT)
      if cfg.pwr_pin then
        if delayOk then
          power_on_boot atR delayOk
            (t0 ++ [Act.pinLow, Act.delayMs PWR_ON_PULL_TIME_MS, Act.pinHigh])
        else
          (Except.error Error.Busy, t0 ++ [Act.pinLow, Act.delayMs PWR_ON_PULL_TIME_MS])
      else
        match send (restartCmd false) with
        | Except.error e =>
          (Except.error (Error.Network e), t0 ++ [Act.cmd (restartCmd false)])
        | Except.ok _ => power_on_boot atR delayOk (t0 ++ [Act.cmd (restartCmd false)])

/-- Modelled from the spec: the bring-up state machine (section 4.2;
`state.rs` is not in the sources) — current state, bounded attempt
counter, configured maximum, and whether a backoff delay is armed. -/
structure StateMachine where
  state : State
  retry_count : Nat
  max_retry_attempts : Nat
  retrying : Bool
deriving DecidableEq

/-- Modelled from the spec: result of `retry_or_fail` — either "still
retrying" (a backoff delay was armed) or the fatal `StateTimeout`. -/
inductive RetryOutcome
  | retrying
  | fatalTimeout
deriving DecidableEq

/-- Modelled from the spec: unconditional state overwrite. -/
def StateMachine.set_state (f : StateMachine) (s : State) : StateMachine :=
  { f with state := s }

/-- Modelled from the spec: read the current state. -/
def StateMachine.get_state (f : StateMachine) : State :=
  f.state

/-- Modelled from the spec: clears the counter and returns to the initial
backoff. -/
def StateMachine.reset (f : StateMachine) : StateMachine :=
  { f with retry_count := 0, retrying := false }

/-- Modelled from the spec: true while a backoff delay is pending. -/
def StateMachine.is_retry (f : StateMachine) : Bool :=
  f.retrying

/-- Modelled from the spec: advances the counter; if under the configured
maximum, arms a delay and reports "still retrying"; otherwise reports the
fatal timeout. -/
def StateMachine.retry_or_fail (f : StateMachine) : RetryOutcome × StateMachine :=
  if f.retry_count < f.max_retry_attempts then
    (RetryOutcome.retrying, { f with retry_count := f.retry_count + 1, retrying := true })
  else
    (RetryOutcome.fatalTimeout, f)

/-- Modelled from the spec: override of the maximum attempt count (used to
force immediate exhaustion on registration-denied). -/
def StateMachine.set_max_retry_attempts (f : StateMachine) (n : Nat) : StateMachine :=
  { f with max_retry_attempts := n }

/-- The orchestrator's mutable state: state machine, configuration, the
Network Layer's pending event queue and its two connection flags. -/
structure Device where
  fsm : StateMachine
  config : Config
  events : List Event
  attached : Bool
  pdp_context_active : Bool
deriving DecidableEq

/-- Environment of one `spin` call: outcomes of every collaborator
interaction that call may make. `retryDelayElapsed` answers the backoff
timer's non-blocking "has elapsed" query; `atR i` answers the i-th `AT`
liveness exchange; `send` answers unit-response commands; the remaining
fields answer the typed queries and sub-protocols. -/
structure SpinEnv where
  retryDelayElapsed : Bool
  atR : Nat → Except NetworkError Unit
  send : ATCommand → Except NetworkError Unit
  pinStatusR : Except NetworkError PinStatusCode
  gprsAttachedR : Except NetworkError GPRSAttachedState
  ccidR : Except NetworkError Nat
  registerR : Except (Nb NetworkError) Unit
  attachR : Except (Nb NetworkError) Unit
  pdpReportOk : Bool
  delayOk : Bool

/-- Entries of a `spin` call's log: an event-driven or action-driven
state-machine overwrite, or one of the action-phase side effects. -/
inductive SpinAct
  | setState (s : State)
  | act (a : Act)
deriving DecidableEq

/-- The `matches!` state filter of the registration-status-changed arm
(client.rs:339). -/
def stateMatches (s : State) : Bool :=
  match s with
  | State.SignalQuality | State.RegisteringNetwork
  | State.AttachingNetwork | State.Connected => true
  | _ => false

/-- The `matches!` network-type filter of the registration-status-changed
arm (client.rs:345): cellular, i.e. not the 2G circuit-switched domain. -/
def ranMatches (r : RadioAccessNetwork) : Bool :=
  match r with
  | RadioAccessNetwork.Utran | RadioAccessNetwork.Eutran => true
  | _ => false

/-- Full condition of the registration-status-changed arm
(client.rs:339-348). -/
def regEventApplies (s : State) (ran : RadioAccessNetwork)
    (status : RegistrationStatus) : Bool :=
  stateMatches s && ranMatches ran && status.is_registered.isSome

/-- Event-drain loop of `Device::spin` (client.rs:319-371): pops events in
arrival order; a disconnect overwrites the state with `Init` and clears
the queue (so the remaining events are discarded unprocessed); a matching
registration-status change overwrites with `RegisteringNetwork` and
likewise clears; every other event is consumed without effect. Returns
the state after the drain and the log of state overwrites made. -/
def processEvents (s : State) : List Event → State × List SpinAct
  | [] => (s, [])
  | Event.Disconnected _ :: _ =>
    (State.Init, [SpinAct.setState State.Init])
  | Event.CellularRegistrationStatusChanged ran status :: rest =>
    if regEventApplies s ran status then
      (State.RegisteringNetwork, [SpinAct.setState State.RegisteringNetwork])
    else
      processEvents s rest
  | _ :: rest => processEvents s rest

/-- Outcome of the current state's action inside `spin`: advance to a
state, fall back to a state through the retry policy, finish (`Connected`
returns `Ok(())`), or abort the call with an error (`?` on a fatal
path). -/
inductive ActionOut
  | next (s : State)
  | fallback (s : State)
  | done
  | fatal (e : Error)
deriving DecidableEq

/-- `SimPin` arm of `spin` (client.rs:418-475): enable registration URCs
(fatal on error), query pin status (fatal on error); when the pin is
ready, clear both connection flags, probe the packet-attach state (fatal
on error) and record it, then best-effort enable packet-domain event
reporting and advance to `SignalQuality`; otherwise fall back to
`PowerOn`. -/
def simPinAction (env : SpinEnv) (dev : Device) : ActionOut × Device × List Act :=
  match enable_registration_urcs env.send with
  | (Except.error e, tr) => (ActionOut.fatal e, dev, tr.map Act.cmd)
  | (Except.ok _, tr) =>
    let t1 := tr.map Act.cmd ++ [Act.cmd ATCommand.GetPinStatus]
    match env.pinStatusR with
    | Except.error e => (ActionOut.fatal (Error.Network e), dev, t1)
    | Except.ok code =>
      if code = PinStatusCode.Ready then
        let dev1 := { dev with attached := false, pdp_context_active := false }
        match env.gprsAttachedR with
        | Except.error e =>
          (ActionOut.fatal (Error.Network e), dev1, t1 ++ [Act.cmd ATCommand.GetGPRSAttached])
        | Except.ok st =>
          let dev2 :=
            if st = GPRSAttachedState.Attached then { dev1 with attached := true } else dev1
          (ActionOut.next State.SignalQuality, dev2,
            t1 ++ [Act.cmd ATCommand.GetGPRSAttached,
                   Act.cmd (ATCommand.SetPacketDomainEventReporting true)])
      else
        (ActionOut.fallback State.PowerOn, dev, t1)

/-- The per-state action of `Device::spin` (client.rs:379-505), producing
the action outcome, the updated device (connection flags, retry-budget
override) and the trace of side effects. -/
def stateAction (env : SpinEnv) (dev : Device) : ActionOut × Device × List Act :=
  match dev.fsm.get_state with
  | State.Init =>
    -- initialize(true): leave_pwr_alone is true, so the power pin is
    -- untouched and the call always succeeds (client.rs:91-106, 380-383)
    (ActionOut.next State.PowerOn, dev, [])
  | State.PowerOn =>
    match power_on dev.config env.atR env.send env.delayOk with
    | (Except.ok _, tr) => (ActionOut.next State.Configure, dev, tr)
    | (Except.error _, tr) => (ActionOut.fallback State.PowerOn, dev, tr)
  | State.Configure =>
    match configure dev.config env.send with
    | (Except.ok _, tr) => (ActionOut.next State.DeviceReady, dev, tr.map Act.cmd)
    | (Except.error _, tr) => (ActionOut.fallback State.PowerOn, dev, tr.map Act.cmd)
  | State.DeviceReady =>
    let ratCmd := ATCommand.SetRadioAccessTechnology
      (RadioAccessTechnologySelected.GsmUmtsLte RatPreferred.Lte RatPreferred.Utran)
    match env.send ratCmd with
    | Except.error e => (ActionOut.fatal (Error.Network e), dev, [Act.cmd ratCmd])
    | Except.ok _ =>
      let fullCmd := ATCommand.SetModuleFunctionality Functionality.Full none
      match env.send fullCmd with
      | Except.error e =>
        (ActionOut.fatal (Error.Network e), dev, [Act.cmd ratCmd, Act.cmd fullCmd])
      | Except.ok _ =>
        (ActionOut.next State.SimPin, dev, [Act.cmd ratCmd, Act.cmd fullCmd])
  | State.SimPin => simPinAction env dev
  | State.SignalQuality =>
    -- best-effort CCID query: the outcome is only logged
    (ActionOut.next State.RegisteringNetwork, dev, [Act.cmd ATCommand.GetCCID])
  | State.RegisteringNetwork =>
    match env.registerR with
    | Except.ok _ => (ActionOut.next State.AttachingNetwork, dev, [])
    | Except.error (Nb.other NetworkError.RegistrationDenied) =>
      match env.send (restartCmd true) with
      | Except.error e =>
        (ActionOut.fatal (Error.Network e), dev, [Act.cmd (restartCmd true)])
      | Except.ok _ =>
        if env.delayOk then
          (ActionOut.fallback State.PowerOn,
            { dev with fsm := dev.fsm.set_max_retry_attempts 0 },
            [Act.cmd (restartCmd true), Act.delayMs BOOT_WAIT_TIME_MS])
        else
          (ActionOut.fatal Error.Busy,
            dev, [Act.cmd (restartCmd true), Act.delayMs BOOT_WAIT_TIME_MS])
    | Except.error _ => (ActionOut.fallback State.PowerOn, dev, [])
  | State.AttachingNetwork =>
    match env.attachR with
    | Except.ok _ => (ActionOut.next State.Connected, dev, [])
    | Except.error _ => (ActionOut.fallback State.PowerOn, dev, [])
  | State.Connected =>
    (ActionOut.done, { dev with fsm := dev.fsm.reset }, [])

/-- Result of one `spin` call: `Ok(())`, `WouldBlock`, or a fatal
error. -/
inductive SpinRet
  | ok
  | wouldBlock
  | err (e : Error)
deriving DecidableEq

/-- `Device::spin` (client.rs:316-519): pump URCs (observed only through
the queue), drain all pending events, honour a pending backoff delay,
run the current state's action, then either overwrite the state with the
action's successor, or run the retry policy and overwrite with the
fallback state only on the fatal timeout. The log records the drain
phase's overwrites, the action's side effects, and the final overwrite in
that order. -/
def spin (env : SpinEnv) (dev : Device) : SpinRet × Device × List SpinAct :=
  match processEvents dev.fsm.get_state dev.events with
  | (s1, log1) =>
    let dev1 := { dev with fsm := dev.fsm.set_state s1, events := [] }
    if dev1.fsm.is_retry && !env.retryDelayElapsed then
      (SpinRet.wouldBlock, dev1, log1)
    else
      match stateAction env dev1 with
      | (ActionOut.done, dev2, log2) =>
        (SpinRet.ok, dev2, log1 ++ log2.map SpinAct.act)
      | (ActionOut.fatal e, dev2, log2) =>
        (SpinRet.err e, dev2, log1 ++ log2.map SpinAct.act)
      | (ActionOut.next s, dev2, log2) =>
        (SpinRet.wouldBlock, { dev2 with fsm := dev2.fsm.set_state s },
          log1 ++ log2.map SpinAct.act ++ [SpinAct.setState s])
      | (ActionOut.fallback s, dev2, log2) =>
        match dev2.fsm.retry_or_fail with
        | (RetryOutcome.fatalTimeout, fsm1) =>
          (SpinRet.wouldBlock, { dev2 with fsm := fsm1.set_state s },
            log1 ++ log2.map SpinAct.act ++ [SpinAct.setState s])
        | (RetryOutcome.retrying, fsm1) =>
          (SpinRet.wouldBlock, { dev2 with fsm := fsm1 },
            log1 ++ log2.map SpinAct.act)

/-- `Device::send_at` (client.rs:521): rejected with
`Error::Uninitialized` while the state machine is still in `Init`,
otherwise forwarded to the Network Layer; the second component counts
transport exchanges. -/
def send_at {α : Type} (s : State) (exchangeR : Except NetworkError α) :
    Except Error α × Nat :=
  if s = State.Init then (Except.error Error.Uninitialized, 0)
  else
    match exchangeR with
    | Except.ok r => (Except.ok r, 1)
    | Except.error e => (Except.error (Error.Network e), 1)

/-- Number of state-machine overwrites recorded in a `spin` log. -/
def setStateCount (l : List SpinAct) : Nat :=
  l.countP fun a =>
    match a with
    | SpinAct.setState _ => true
    | SpinAct.act _ => false

/-- A plain configuration: moderate baud rate, power pin wired, no
presence-indicator pin. -/
def cfgDefault : Config :=
  { baud_rate := 115200, hex_mode := true, flow_control := false,
    rst_pin := false, dtr_pin := false, pwr_pin := true, vint_pin := none }

/-- Configuration whose presence-indicator pin is wired and currently
reports the module as powered. -/
def cfgVintOn : Config :=
  { cfgDefault with vint_pin := some true }

/-- Configuration with a 460 800 baud rate, above the supported ceiling. -/
def cfg460800 : Config :=
  { cfgDefault with baud_rate := 460800 }

/-- Environment in which every collaborator interaction succeeds. -/
def envOk : SpinEnv :=
  { retryDelayElapsed := true,
    atR := fun _ => Except.ok (),
    send := fun _ => Except.ok (),
    pinStatusR := Except.ok PinStatusCode.Ready,
    gprsAttachedR := Except.ok GPRSAttachedState.Attached,
    ccidR := Except.ok 0,
    registerR := Except.ok (),
    attachR := Except.ok (),
    pdpReportOk := true,
    delayOk := true }

/-- Environment in which the registration sub-protocol reports
registration denied and everything else succeeds. -/
def envDenied : SpinEnv :=
  { envOk with registerR := Except.error (Nb.other NetworkError.RegistrationDenied) }

/-- State machine resting in state `s`, no retry in progress, a
ten-attempt budget. -/
def fsmAt (s : State) : StateMachine :=
  { state := s, retry_count := 0, max_retry_attempts := 10, retrying := false }

/-- Device resting in state `s` with pending event queue `evs`. -/
def devAt (s : State) (evs : List Event) : Device :=
  { fsm := fsmAt s, config := cfgDefault, events := evs,
    attached := false, pdp_context_active := false }

/-- Connected device with one pending disconnect event. -/
def devDisc : Device :=
  devAt State.Connected [Event.Disconnected none]

/-- Connected device with one pending cellular registration-status-changed
event reporting a registered status on UTRAN. -/
def devConnReg : Device :=
  devAt State.Connected
    [Event.CellularRegistrationStatusChanged RadioAccessNetwork.Utran
      RegistrationStatus.RegisteredHomeNetwork]

/-- Device about to run the registration sub-protocol, no pending
events. -/
def devReg : Device :=
  devAt State.RegisteringNetwork []

/-- Device in `SignalQuality` with a disconnect event queued ahead of a
cell-id event. -/
def devSigDisc : Device :=
  devAt State.SignalQuality [Event.Disconnected none, Event.CellularCellIDChanged none]

theorem setStateCount_append (a b : List SpinAct) :
    setStateCount (a ++ b) = setStateCount a + setStateCount b :=
  List.countP_append _ _ _

theorem setStateCount_map_act (l : List Act) :
    setStateCount (l.map SpinAct.act) = 0 := by
  induction l with
  | nil => rfl
  | cons a as ih => simp [setStateCount, List.countP_cons] at ih ⊢

theorem setStateCount_single_set (s : State) :
    setStateCount [SpinAct.setState s] = 1 := rfl

theorem processEvents_setStateCount (s : State) (evs : List Event) :
    setStateCount (processEvents s evs).2 ≤ 1 := by
  induction evs generalizing s with
  | nil => simp [processEvents, setStateCount]
  | cons e rest ih =>
    cases e with
    | Disconnected cid => simp [processEvents, setStateCount, List.countP_cons]
    | CellularRegistrationStatusChanged ran status =>
      by_cases h : regEventApplies s ran status
      · simp [processEvents, h, setStateCount, List.countP_cons]
      · simpa [processEvents, h] using ih s
    | CellularRadioAccessTechnologyChanged ran rat =>
      simpa [processEvents] using ih s
    | CellularCellIDChanged cell =>
      simpa [processEvents] using ih s

theorem stateAction_events (env : SpinEnv) (dev : Device) :
    (stateAction env dev).2.1.events = dev.events := by
  unfold stateAction simPinAction
  repeat' split
  all_goals dsimp only
  repeat' split
  all_goals rfl

theorem spin_events_nil (env : SpinEnv) (dev : Device) :
    (spin env dev).2.1.events = [] := by
  unfold spin
  rcases hp : processEvents dev.fsm.get_state dev.events with ⟨s1, log1⟩
  dsimp only
  split
  · rfl
  · rcases ha : stateAction env
      { dev with fsm := dev.fsm.set_state s1, events := [] } with ⟨out, dev2, log2⟩
    have hev : dev2.events = [] := by
      have := stateAction_events env { dev with fsm := dev.fsm.set_state s1, events := [] }
      rw [ha] at this
      exact this
    cases out with
    | next s => simpa using hev
    | fallback s =>
      rcases hr : dev2.fsm.retry_or_fail with ⟨ro, fsm1⟩
      dsimp only
      rw [hr]
      cases ro <;> simpa using hev
    | done => simpa using hev
    | fatal e => simpa using hev

theorem is_aliveGo_count_le (send : Nat → Except NetworkError Unit) :
    ∀ (n : Nat) (err : Error) (idx : Nat), (is_aliveGo send err idx n).2 ≤ idx + n := by
  intro n
  induction n with
  | zero => intro err idx; simp [is_aliveGo]
  | succ m ih =>
    intro err idx
    rcases h : send idx with e | u
    · simpa [is_aliveGo, h] using le_trans (ih (Error.Network e) (idx + 1)) (by omega)
    · simp [is_aliveGo, h]

theorem is_aliveGo_first_ok (send : Nat → Except NetworkError Unit) :
    ∀ (k n : Nat) (err : Error) (idx : Nat), k < n →
      send (idx + k) = Except.ok () →
      (∀ j, j < k → send (idx + j) ≠ Except.ok ()) →
      is_aliveGo send err idx n = (Except.ok (), idx + k + 1) := by
  intro k
  induction k with
  | zero =>
    intro n err idx hk hok _
    match n, hk with
    | m + 1, _ =>
      simp only [Nat.add_zero] at hok
      simp [is_aliveGo, hok]
  | succ k ih =>
    intro n err idx hk hok hprev
    match n, hk with
    | m + 1, hk =>
      have h0 : send idx ≠ Except.ok () := by
        have := hprev 0 (Nat.succ_pos k)
        simpa using this
      rcases h : send idx with e | u
      · have hrec := ih m (Error.Network e) (idx + 1) (by omega)
          (by rw [show idx + 1 + k = idx + (k + 1) from by omega]; exact hok)
          (fun j hj => by
            rw [show idx + 1 + j = idx + (j + 1) from by omega]
            exact hprev (j + 1) (by omega))
        rw [show idx + 1 + k + 1 = idx + (k + 1) + 1 from by omega] at hrec
        simpa [is_aliveGo, h] using hrec
      · cases u; exact absurd h h0

theorem is_aliveGo_all_fail (send : Nat → Except NetworkError Unit)
    (errAt : Nat → NetworkError) (hfail : ∀ i, send i = Except.error (errAt i)) :
    ∀ (n : Nat) (err : Error) (idx : Nat), 0 < n →
      is_aliveGo send err idx n =
        (Except.error (Error.Network (errAt (idx + n - 1))), idx + n) := by
  intro n
  induction n with
  | zero => intro err idx h; omega
  | succ m ih =>
    intro err idx _
    cases m with
    | zero => simp [is_aliveGo, hfail idx]
    | succ m' =>
      have hrec := ih (Error.Network (errAt idx)) (idx + 1) (Nat.succ_pos m')
      rw [show idx + 1 + (m' + 1) - 1 = idx + (m' + 1 + 1) - 1 from by omega,
        show idx + 1 + (m' + 1) = idx + (m' + 1 + 1) from by omega] at hrec
      simpa [is_aliveGo, hfail idx] using hrec

/-- Claim C8: `is_alive(attempts)` performs at most `attempts` liveness
exchanges; it returns success after the first successful exchange,
performing no further exchanges (exactly `k + 1` when the first success is
the k-th exchange); and against a transport that always fails it returns,
after exactly `attempts` exchanges, the conversion of the last observed
transport error. -/
theorem is_alive_attempt_semantics (send : Nat → Except NetworkError Unit)
    (attempts : Nat) :
    (is_alive send attempts).2 ≤ attempts ∧
    (∀ k, k < attempts → send k = Except.ok () →
      (∀ j, j < k → send j ≠ Except.ok ()) →
      is_alive send attempts = (Except.ok (), k + 1)) ∧
    (∀ errAt : Nat → NetworkError, 0 < attempts →
      (∀ i, send i = Except.error (errAt i)) →
      is_alive send attempts =
        (Except.error (Error.Network (errAt (attempts - 1))), attempts)) := by
  refine ⟨?_, ?_, ?_⟩
  · simpa [is_alive] using is_aliveGo_count_le send attempts Error.BaudDetection 0
  · intro k hk hok hprev
    simpa [is_alive] using
      is_aliveGo_first_ok send k attempts Error.BaudDetection 0 hk (by simpa using hok)
        (fun j hj => by simpa using hprev j hj)
  · intro errAt hpos hfail
    simpa [is_alive] using
      is_aliveGo_all_fail send errAt hfail attempts Error.BaudDetection 0 hpos

/-- Witness for C8: two attempts against an always-failing transport give
exactly two exchanges and the last transport error. -/
theorem is_alive_attempt_semantics_witness :
    is_alive (fun _ => Except.error NetworkError.Generic) 2 =
      (Except.error (Error.Network NetworkError.Generic), 2) :=
  (is_alive_attempt_semantics (fun _ => Except.error NetworkError.Generic) 2).2.2
    (fun _ => NetworkError.Generic) (by decide) (fun _ => rfl)

/-- Claim C10: with zero attempts, `is_alive` performs no exchange and
returns the default `BaudDetection` error. -/
theorem is_alive_zero_attempts_default_error
    (send : Nat → Except NetworkError Unit) :
    is_alive send 0 = (Except.error Error.BaudDetection, 0) := rfl

/-- Claim C9: `send_at` in state `Init` fails with `Uninitialized` and
performs no transport exchange; in any other state it performs exactly one
exchange and forwards the Network Layer's answer. -/
theorem send_at_uninitialized_guard {α : Type} (s : State)
    (r : Except NetworkError α) :
    (s = State.Init → send_at s r = (Except.error Error.Uninitialized, 0)) ∧
    (s ≠ State.Init →
      (∀ v, r = Except.ok v → send_at s r = (Except.ok v, 1)) ∧
      (∀ e, r = Except.error e →
        send_at s r = (Except.error (Error.Network e), 1))) := by
  refine ⟨fun h => by simp [send_at, h], fun h => ⟨?_, ?_⟩⟩
  · intro v hv; simp [send_at, h, hv]
  · intro e he; simp [send_at, h, he]

/-- Witness for C9: the guard at `Init` and the forwarding in
`Connected`, at a concrete exchange outcome. -/
theorem send_at_uninitialized_guard_witness :
    send_at State.Init (Except.ok (0 : Nat)) =
      (Except.error Error.Uninitialized, 0) ∧
    send_at State.Connected (Except.ok (0 : Nat)) = (Except.ok 0, 1) :=
  ⟨(send_at_uninitialized_guard State.Init (Except.ok 0)).1 rfl,
   ((send_at_uninitialized_guard State.Connected (Except.ok 0)).2
      (by decide)).1 0 rfl⟩

/-- Claim C5: a configured baud rate above 230 400 makes `configure` fail
immediately — with the reserved `_Unknown` error the source uses for this
rejection — and issue zero commands. -/
theorem configure_rejects_high_baud (cfg : Config)
    (send : ATCommand → Except NetworkError Unit)
    (h : 230400 < cfg.baud_rate) :
    configure cfg send = (Except.error Error._Unknown, []) := by
  simp [configure, h]

/-- Witness for C5: baud rate 460 800 is rejected with an empty command
trace. -/
theorem configure_rejects_high_baud_witness :
    230400 < cfg460800.baud_rate ∧
    configure cfg460800 (fun _ => Except.ok ()) =
      (Except.error Error._Unknown, []) :=
  ⟨by decide, configure_rejects_high_baud cfg460800 (fun _ => Except.ok ()) (by decide)⟩

/-- Claim C7: whenever the drain phase of `spin` pops a disconnect event,
the state machine is overwritten with `Init` and the queue is cleared —
the events queued behind the disconnect are discarded unprocessed
(the result does not depend on `rest`) — and the device `spin` returns
has an empty event queue. -/
theorem disconnect_event_forces_init (env : SpinEnv) (dev : Device)
    (cid : Option Nat) (rest : List Event)
    (hev : dev.events = Event.Disconnected cid :: rest) :
    processEvents dev.fsm.get_state dev.events =
      (State.Init, [SpinAct.setState State.Init]) ∧
    (spin env dev).2.1.events = [] := by
  constructor
  · rw [hev]; rfl
  · exact spin_events_nil env dev

/-- Witness for C7: a disconnect queued in `SignalQuality` ahead of a
cell-id event. -/
theorem disconnect_event_forces_init_witness :
    processEvents devSigDisc.fsm.get_state devSigDisc.events =
      (State.Init, [SpinAct.setState State.Init]) ∧
    (spin envOk devSigDisc).2.1.events = [] :=
  disconnect_event_forces_init envOk devSigDisc none
    [Event.CellularCellIDChanged none] rfl

/-- Counterexample to C1 as stated: with a transport that always
succeeds, the command issued for the circuit-switched domain carries
`UrcDisabled`, not the verbose setting the claim asserts for all three
domains. -/
theorem enable_registration_urcs_not_all_verbose :
    (enable_registration_urcs (fun _ => Except.ok ())).2 = urcCommands ∧
    (enable_registration_urcs (fun _ => Except.ok ())).2.head? =
      some (ATCommand.SetNetworkRegistrationStatus
        NetworkRegistrationUrcConfig.UrcDisabled) ∧
    ATCommand.SetNetworkRegistrationStatus NetworkRegistrationUrcConfig.UrcDisabled ≠
      ATCommand.SetNetworkRegistrationStatus NetworkRegistrationUrcConfig.UrcVerbose := by
  decide

/-- Claim C1 (amended): `enable_registration_urcs` issues one
configuration command per registration domain in source order —
circuit-switched with URCs disabled, GPRS verbose, EPS verbose — and
fails with the first command's error, issuing nothing further, when any
of the three fails (each independently fatal). -/
theorem enable_registration_urcs_per_domain
    (send : ATCommand → Except NetworkError Unit) :
    (send csUrcCmd = Except.ok () ∧ send gprsUrcCmd = Except.ok () ∧
      send epsUrcCmd = Except.ok () ∧
      enable_registration_urcs send = (Except.ok (), urcCommands)) ∨
    (∃ e, send csUrcCmd = Except.error e ∧
      enable_registration_urcs send = (Except.error (Error.Network e), [csUrcCmd])) ∨
    (∃ e, send csUrcCmd = Except.ok () ∧ send gprsUrcCmd = Except.error e ∧
      enable_registration_urcs send =
        (Except.error (Error.Network e), [csUrcCmd, gprsUrcCmd])) ∨
    (∃ e, send csUrcCmd = Except.ok () ∧ send gprsUrcCmd = Except.ok () ∧
      send epsUrcCmd = Except.error e ∧
      enable_registration_urcs send = (Except.error (Error.Network e), urcCommands)) := by
  rcases h1 : send csUrcCmd with e1 | u1
  · exact Or.inr (Or.inl ⟨e1, rfl,
      by simp [enable_registration_urcs, urcCommands, sendSeq, h1]⟩)
  · cases u1
    rcases h2 : send gprsUrcCmd with e2 | u2
    · exact Or.inr (Or.inr (Or.inl ⟨e2, rfl, rfl,
        by simp [enable_registration_urcs, urcCommands, sendSeq, h1, h2]⟩))
    · cases u2
      rcases h3 : send epsUrcCmd with e3 | u3
      · exact Or.inr (Or.inr (Or.inr ⟨e3, rfl, rfl, rfl,
          by simp [enable_registration_urcs, urcCommands, sendSeq, h1, h2, h3]⟩))
      · cases u3
        exact Or.inl ⟨rfl, rfl, rfl,
          by simp [enable_registration_urcs, urcCommands, sendSeq, h1, h2, h3]⟩

/-- Claim C2: evaluation of `power_on` at the claim's failing input. The
presence-indicator pin is wired and reports the module as powered
(`cfgVintOn.vint_pin = some true`) while every transport exchange fails,
yet the call does not skip the pulse sequence and succeed as the claim
requires: it pulses the power pin (the trace contains the low edge, the
pull delay and the high edge), waits the boot duration, exhausts the
ten-probe liveness check and fails with the last transport error. The
source's `vint_value` match yields `false` whether or not the pin is
configured, so the pin's reading can never be honoured. -/
theorem power_on_ignores_vint_indicator :
    cfgVintOn.vint_pin = some true ∧
    power_on cfgVintOn (fun _ => Except.error NetworkError.Generic)
        (fun _ => Except.error NetworkError.Generic) true =
      (Except.error (Error.Network NetworkError.Generic),
        List.replicate 3 (Act.cmd ATCommand.AT) ++
          [Act.pinLow, Act.delayMs PWR_ON_PULL_TIME_MS, Act.pinHigh,
           Act.delayMs BOOT_WAIT_TIME_MS] ++
          List.replicate 10 (Act.cmd ATCommand.AT)) ∧
    Act.pinLow ∈ (power_on cfgVintOn (fun _ => Except.error NetworkError.Generic)
        (fun _ => Except.error NetworkError.Generic) true).2 := by
  decide

/-- Counterexample to C3 as stated: one `spin` call that performs two
state transitions. A connected device with a pending disconnect event
first transitions to `Init` while draining events, then the `Init`
action succeeds and transitions to `PowerOn` — two overwrites, both to
genuinely different states, within a single invocation. -/
theorem spin_two_transitions_example :
    devDisc.fsm.get_state = State.Connected ∧
    (spin envOk devDisc).2.2 =
      [SpinAct.setState State.Init, SpinAct.setState State.PowerOn] ∧
    setStateCount (spin envOk devDisc).2.2 = 2 ∧
    State.Connected ≠ State.Init ∧ State.Init ≠ State.PowerOn ∧
    (spin envOk devDisc).2.1.fsm.get_state = State.PowerOn := by
  decide

/-- Claim C3 (amended): on every `spin` call all pending events are
drained and processed strictly before the current state's action — the
call's log is the drain phase's log followed by the action phase's — and
each phase performs at most one state overwrite, so at most two state
transitions (not one, as originally claimed) occur per invocation. -/
theorem spin_events_first_two_transition_bound (env : SpinEnv) (dev : Device) :
    ∃ l : List SpinAct,
      (spin env dev).2.2 = (processEvents dev.fsm.get_state dev.events).2 ++ l ∧
      setStateCount l ≤ 1 ∧
      setStateCount (processEvents dev.fsm.get_state dev.events).2 ≤ 1 ∧
      setStateCount (spin env dev).2.2 ≤ 2 := by
  have hdrain := processEvents_setStateCount dev.fsm.get_state dev.events
  unfold spin
  rcases hp : processEvents dev.fsm.get_state dev.events with ⟨s1, log1⟩
  rw [hp] at hdrain
  dsimp only at hdrain ⊢
  split
  · exact ⟨[], by simp, by simp [setStateCount], hdrain, le_trans hdrain (by omega)⟩
  · rcases ha : stateAction env
      { dev with fsm := dev.fsm.set_state s1, events := [] } with ⟨out, dev2, log2⟩
    cases out with
    | done =>
      dsimp only
      refine ⟨log2.map SpinAct.act, rfl, ?_, hdrain, ?_⟩
      · simp [setStateCount_map_act]
      · rw [setStateCount_append, setStateCount_map_act]; omega
    | fatal e =>
      dsimp only
      refine ⟨log2.map SpinAct.act, rfl, ?_, hdrain, ?_⟩
      · simp [setStateCount_map_act]
      · rw [setStateCount_append, setStateCount_map_act]; omega
    | next s =>
      dsimp only
      refine ⟨log2.map SpinAct.act ++ [SpinAct.setState s], by simp, ?_, hdrain, ?_⟩
      · rw [setStateCount_append, setStateCount_map_act, setStateCount_single_set]
      · rw [List.append_assoc, setStateCount_append, setStateCount_append,
          setStateCount_map_act, setStateCount_single_set]
        omega
    | fallback s =>
      dsimp only
      rcases hr : dev2.fsm.retry_or_fail with ⟨ro, fsm1⟩
      cases ro with
      | retrying =>
        dsimp only
        refine ⟨log2.map SpinAct.act, rfl, ?_, hdrain, ?_⟩
        · simp [setStateCount_map_act]
        · rw [setStateCount_append, setStateCount_map_act]; omega
      | fatalTimeout =>
        dsimp only
        refine ⟨log2.map SpinAct.act ++ [SpinAct.setState s], by simp, ?_, hdrain, ?_⟩
        · rw [setStateCount_append, setStateCount_map_act, setStateCount_single_set]
        · rw [List.append_assoc, setStateCount_append, setStateCount_append,
            setStateCount_map_act, setStateCount_single_set]
          omega

/-- Claim C4: a registration-status-changed event for a cellular (UTRAN
or E-UTRAN) network type reporting a registered status, drained while the
state is one of `SignalQuality`, `RegisteringNetwork`,
`AttachingNetwork`, `Connected`, overwrites the state with
`RegisteringNetwork` and clears the event queue (the events behind it are
discarded — the result does not depend on `rest` — and the device `spin`
returns has an empty queue). -/
theorem reg_event_forces_registering_network (env : SpinEnv) (dev : Device)
    (ran : RadioAccessNetwork) (status : RegistrationStatus) (rest : List Event)
    (hev : dev.events = Event.CellularRegistrationStatusChanged ran status :: rest)
    (hst : stateMatches dev.fsm.get_state = true)
    (hran : ranMatches ran = true)
    (hreg : status.is_registered.isSome = true) :
    processEvents dev.fsm.get_state dev.events =
      (State.RegisteringNetwork, [SpinAct.setState State.RegisteringNetwork]) ∧
    (spin env dev).2.1.events = [] := by
  constructor
  · rw [hev]
    simp [processEvents, regEventApplies, hst, hran, hreg]
  · exact spin_events_nil env dev

/-- Witness for C4: a registered-on-UTRAN status change drained while
connected. -/
theorem reg_event_forces_registering_network_witness :
    processEvents devConnReg.fsm.get_state devConnReg.events =
      (State.RegisteringNetwork, [SpinAct.setState State.RegisteringNetwork]) ∧
    (spin envOk devConnReg).2.1.events = [] :=
  reg_event_forces_registering_network envOk devConnReg RadioAccessNetwork.Utran
    RegistrationStatus.RegisteredHomeNetwork [] rfl (by decide) (by decide) (by decide)

/-- Claim C6: when the registration sub-protocol reports registration
denied in state `RegisteringNetwork` (and the drain phase had nothing to
do), `spin` issues the SIM-reset restart command, waits the boot
duration, zeroes the retry budget's maximum, and — the budget being
exhausted on the spot — commits the fallback immediately: the resulting
state is `PowerOn`, and any further `retry_or_fail` on the resulting
state machine reports the fatal timeout at once. -/
theorem registration_denied_forces_power_on (env : SpinEnv) (dev : Device)
    (hst : dev.fsm.get_state = State.RegisteringNetwork)
    (hev : dev.events = [])
    (hretry : dev.fsm.is_retry = false)
    (hreg : env.registerR = Except.error (Nb.other NetworkError.RegistrationDenied))
    (hsend : env.send (restartCmd true) = Except.ok ())
    (hdelay : env.delayOk = true) :
    (spin env dev).2.1.fsm.get_state = State.PowerOn ∧
    (spin env dev).2.1.fsm.max_retry_attempts = 0 ∧
    (spin env dev).2.2 =
      [SpinAct.act (Act.cmd (restartCmd true)),
       SpinAct.act (Act.delayMs BOOT_WAIT_TIME_MS),
       SpinAct.setState State.PowerOn] ∧
    ((spin env dev).2.1.fsm.retry_or_fail).1 = RetryOutcome.fatalTimeout := by
  have hs : dev.fsm.state = State.RegisteringNetwork := hst
  have hr : dev.fsm.retrying = false := hretry
  simp [spin, processEvents, hev, stateAction, StateMachine.get_state,
    StateMachine.set_state, StateMachine.is_retry, hs, hr, hreg, hsend, hdelay,
    StateMachine.set_max_retry_attempts, StateMachine.retry_or_fail]

/-- Witness for C6: concrete device in `RegisteringNetwork` against an
environment whose registration sub-protocol reports denied. -/
theorem registration_denied_forces_power_on_witness :
    (spin envDenied devReg).2.1.fsm.get_state = State.PowerOn ∧
    (spin envDenied devReg).2.1.fsm.max_retry_attempts = 0 ∧
    (spin envDenied devReg).2.2 =
      [SpinAct.act (Act.cmd (restartCmd true)),
       SpinAct.act (Act.delayMs BOOT_WAIT_TIME_MS),
       SpinAct.setState State.PowerOn] ∧
    ((spin envDenied devReg).2.1.fsm.retry_or_fail).1 = RetryOutcome.fatalTimeout :=
  registration_denied_forces_power_on envDenied devReg rfl rfl rfl rfl rfl rfl

end Ublox
